import Mathlib

/-!
# go-crud-boilerplate: the product handlers of `main.go`

A shallow embedding of the four request handlers of `src/main.go`
(`GetProductsHandler`, `CreateProductHandler`, `GetProductByCacheIdHandler`,
`DeleteProductHandler`) as pure functions over an explicit `World`: the
object store, the `products` table, the Redis key space and the NATS
subject log.  Every handler returns its HTTP response, the world after the
request and the ordered list of calls it made to the four backends.

Conventions.
* Go `int` is the 64-bit two's-complement integer: arithmetic results are
  passed through `wrapInt`.
* An error returned by a backend client is an input of the handler (the
  record `Faults`): a handler is a function of the request, the world, the
  clock and the outcome of each backend call that it inspects.  `db.Find`
  and `db.First` have no fault flag: the handlers never look at their error,
  only at the rows they yield.
* Time is a natural number of seconds; a Redis entry written at `now` with a
  TTL of `ttl` seconds is readable at `t` exactly when `t < now + ttl`.
* The text of the `"error"` field of an error response (`err.Error()`) is
  not modelled; `"type"` and `"message"` are.
* `Product` embeds `*gorm.Model`, a pointer: reading `product.ID` while the
  pointer is nil panics.  The router is `gin.Default()`, whose Recovery
  middleware answers a panicking handler with status 500 and an empty body
  (`recovered`).
-/

namespace GoCrud

/-! ## Machine integers and `strconv` -/

/-- Two's-complement wrap of a mathematical integer into the range of Go's 64-bit `int`. -/
def wrapInt (x : Int) : Int := (x + 2 ^ 63) % 2 ^ 64 - 2 ^ 63

/-- Go conversion `int(u)` of a `uint` value. -/
def uintToInt (u : Nat) : Int := wrapInt (u : Int)

/-- Decimal digit test on one character of the input of `strconv.Atoi`. -/
def isDecDigit (c : Char) : Bool := decide (48 ≤ c.toNat) && decide (c.toNat ≤ 57)

/-- Value of a run of decimal digits, most significant first. -/
def digitsValue (cs : List Char) : Nat :=
  cs.foldl (fun acc c => 10 * acc + (c.toNat - 48)) 0

/-- Splits an optional leading sign off the input of `strconv.Atoi`; `true` means negative. -/
def splitSign : List Char → Bool × List Char
  | '+' :: rest => (false, rest)
  | '-' :: rest => (true, rest)
  | cs => (false, cs)

/-- Go `strconv.Atoi` on a 64-bit platform: the parsed value and whether `err != nil`.
A string that is not `[+-]?[0-9]+` yields `(0, true)`; a well-formed number outside
the `int` range yields the nearest bound together with an error. -/
def Atoi (s : String) : Int × Bool :=
  let sd := splitSign s.toList
  if sd.2.isEmpty || !(sd.2.all isDecDigit) then (0, true)
  else
    let n := digitsValue sd.2
    if sd.1 then
      (if 2 ^ 63 < n then (-(2 ^ 63 : Int), true) else (-(n : Int), false))
    else
      (if 2 ^ 63 ≤ n then ((2 ^ 63 - 1 : Int), true) else ((n : Int), false))

/-- Go `strconv.Itoa`. -/
def Itoa (i : Int) : String := toString i

/-! ## Data model -/

/-- The struct `gorm.Model`. -/
structure Model where
  ID : Nat
  CreatedAt : Nat
  UpdatedAt : Nat
  DeletedAt : Option Nat
  deriving DecidableEq, Repr

/-- The `Product` GORM struct (`main.go` 124-128): the embedded `*gorm.Model` is a pointer,
`none` is the nil pointer. -/
structure Product where
  Model : Option Model
  Name : String
  PhotoKey : String
  deriving DecidableEq, Repr

/-- The zero value `var product Product`: the embedded pointer is nil. -/
def Product.zero : Product :=
  { Model := none, Name := "", PhotoKey := "" }

/-- Column `id` of a table row, and the promoted field `ID` of a struct whose `Model` is
allocated; 0 stands in when `Model` is nil.  The handlers do not read the field this way:
they test `Model` first and panic on nil. -/
def Product.ID (p : Product) : Nat :=
  match p.Model with
  | some m => m.ID
  | none => 0

/-- The part of `multipart.FileHeader` the handler reads: the client file name and the
content; `Size` is the length of the content. -/
structure FileHeader where
  Filename : String
  content : List Nat
  deriving DecidableEq, Repr

/-- Field `Size` of `multipart.FileHeader`. -/
def FileHeader.Size (fh : FileHeader) : Nat := fh.content.length

/-- The form of `POST /products`; an absent form field is `""`, an absent file is `none`. -/
structure CreateProductDto where
  Name : String
  ProductPhoto : Option FileHeader
  deriving DecidableEq, Repr

/-- An object held by the S3-compatible store, as written by `PutObject`. -/
structure S3Object where
  Body : List Nat
  ContentLength : Int
  ContentType : String
  ContentDisposition : String
  deriving DecidableEq, Repr

/-- The state of the four backends. -/
structure World where
  -- object store: `(bucket, key)` to object, the first entry of a key counts
  objects : List ((String × String) × S3Object)
  -- table `products` in insertion order, soft-deleted rows included
  products : List Product
  -- last value handed out by the id sequence of the table
  lastId : Nat
  -- redis: key to `(value, expiry time)`
  cache : List (String × (String × Nat))
  -- messages accepted by NATS: `(subject, payload)`
  published : List (String × String)
  deriving DecidableEq, Repr

/-- Process-wide configuration read in `main`, and `http.DetectContentType`. -/
structure Env where
  s3Public : String
  s3Endpoint : String
  DetectContentType : List Nat → String

/-- The two ways `db.Create` can return an error: before gorm has touched the struct (the
embedded `Model` stays nil), or at the `INSERT`, after gorm has allocated `Model` and set
the timestamps (the id stays 0). -/
inductive CreateError where
  | untouched
  | insert
  deriving DecidableEq, Repr

/-- Error values `tx.Error` that `DeleteProductHandler` tells apart. -/
inductive DbError where
  | ErrRecordNotFound
  | other
  deriving DecidableEq, Repr

/-- Outcome of each backend call whose error the handlers inspect or discard: `true`, or
`some` error, means the client returned an error. -/
structure Faults where
  fileOpen : Bool
  PutObject : Bool
  dbCreate : Option CreateError
  rdbSet : Bool
  Publish : Bool
  rdbGet : Bool
  GetObject : Bool
  DeleteObject : Bool
  dbDelete : Option DbError
  deriving DecidableEq, Repr

/-- No backend call fails. -/
def Faults.none : Faults :=
  { fileOpen := false, PutObject := false, dbCreate := Option.none, rdbSet := false,
    Publish := false, rdbGet := false, GetObject := false, DeleteObject := false,
    dbDelete := Option.none }

/-- A call made by a handler to one of the backends. -/
inductive Call where
  | PutObject (bucket key : String)
  | GetObject (bucket key : String)
  | DeleteObject (bucket key : String)
  | dbCreate (name photoKey : String)
  | dbFind (limit offset : Int)
  | dbFirst (id : Int)
  | dbDelete (id : Nat)
  | rdbSet (key value : String) (ttl : Nat)
  | rdbGet (key : String)
  | Publish (subject payload : String)
  deriving DecidableEq, Repr

/-- Response bodies: the `gin.H` maps of the handlers, the raw file of `DataFromReader`, and
the empty body of a response the handler never wrote. -/
inductive Body where
  | empty
  | error (type message : String)
  | products (type message : String) (products : List Product)
  | created (type message : String) (product : Product)
      (cache_id image_temp_url image_real_url : String)
  | deleted (type message : String)
  | data (contentDisposition : String) (contentLength : Int) (contentType : String)
      (body : List Nat)
  deriving DecidableEq, Repr

/-- An HTTP response. -/
structure Response where
  status : Nat
  body : Body
  deriving DecidableEq, Repr

/-- The answer of gin's Recovery middleware to a handler that panicked before writing a
response: status 500, no body. -/
def recovered : Response := { status := 500, body := Body.empty }

/-- What a handler run yields. -/
structure Result where
  resp : Response
  world : World
  calls : List Call
  deriving DecidableEq, Repr

/-! ## Backends -/

/-- Object stored under `(bucket, key)`, if any. -/
def lookupObject (bucket key : String) (objs : List ((String × String) × S3Object)) :
    Option S3Object :=
  (objs.find? (fun e => decide (e.1 = (bucket, key)))).map (fun e => e.2)

/-- S3 `PutObject`: on success the object replaces whatever the key held. -/
def PutObject (fault : Bool) (bucket key : String) (obj : S3Object) (w : World) : World :=
  if fault then w
  else { w with objects :=
          ((bucket, key), obj) :: w.objects.filter (fun e => decide (e.1 ≠ (bucket, key))) }

/-- S3 `GetObject`: an error when the client fails or the key holds nothing. -/
def GetObject (fault : Bool) (bucket key : String) (w : World) : Option S3Object :=
  if fault then none else lookupObject bucket key w.objects

/-- S3 `DeleteObject`: on success the key holds nothing (deleting an absent key succeeds). -/
def DeleteObject (fault : Bool) (bucket key : String) (w : World) : World :=
  if fault then w
  else { w with objects := w.objects.filter (fun e => decide (e.1 ≠ (bucket, key))) }

/-- Rows visible to queries: GORM hides rows whose `DeletedAt` is set.  A table row always
carries a `Model`; an entry without one is no row. -/
def live (p : Product) : Bool :=
  match p.Model with
  | some m => m.DeletedAt.isNone
  | none => false

/-- Largest id the 64-bit id sequence of the table hands out. -/
def maxSerial : Nat := 2 ^ 63 - 1

/-- Whether `db.Create` inserts nothing: a client error, the id sequence is exhausted, or
the next id is already a primary key of the table. -/
def insertFails (fault : Option CreateError) (w : World) : Bool :=
  fault.isSome || decide (maxSerial ≤ w.lastId) ||
    w.products.any (fun r => decide (r.ID = w.lastId + 1))

/-- What gorm does to the struct before the `INSERT`: the embedded `Model` is allocated if
it is nil and the timestamps are set; the id is not touched. -/
def stamp (now : Nat) (p : Product) : Product :=
  match p.Model with
  | some m => { p with Model := some { m with CreatedAt := now, UpdatedAt := now } }
  | none =>
    { p with Model := some { ID := 0, CreatedAt := now, UpdatedAt := now, DeletedAt := none } }

/-- GORM `db.Create(&product)`.  An error before gorm touches the struct leaves struct and
table as they are.  A failing `INSERT` leaves the table as it is and the struct stamped,
its id unchanged.  On success the row is appended with the next id and the id is written
back into the struct. -/
def dbCreate (fault : Option CreateError) (now : Nat) (p : Product) (w : World) :
    Product × World :=
  if fault = some CreateError.untouched then (p, w)
  else if insertFails fault w then (stamp now p, w)
  else
    let q : Product :=
      { p with Model := some { ID := w.lastId + 1, CreatedAt := now, UpdatedAt := now,
                               DeletedAt := none } }
    (q, { w with products := w.products ++ [q], lastId := w.lastId + 1 })

/-- GORM `db.Limit(limit).Offset(offset).Find(&products)`: a `LIMIT` / `OFFSET` clause is
emitted only for a positive value (a negative value never yields a clause); rows come in
insertion order. -/
def dbFind (limit offset : Int) (w : World) : List Product :=
  let rows := w.products.filter live
  let rows := if 0 < offset then rows.drop offset.toNat else rows
  if 0 < limit then rows.take limit.toNat else rows

/-- GORM `db.First(&product, id)` into a zero struct: the live row with that primary key,
or the struct untouched, its `Model` still nil. -/
def dbFirst (id : Int) (w : World) : Product :=
  ((w.products.filter live).find? (fun p => decide ((p.ID : Int) = id))).getD Product.zero

/-- GORM `db.Delete(&product)`: soft delete of the live row(s) with the primary key. -/
def dbDelete (fault : Option DbError) (now : Nat) (p : Product) (w : World) :
    Option DbError × World :=
  match fault with
  | some e => (some e, w)
  | none =>
    (none, { w with products := w.products.map (fun r =>
      if r.ID = p.ID ∧ live r = true then
        { r with Model := r.Model.map (fun m => { m with DeletedAt := some now }) }
      else r) })

/-- Redis `SET key value EX ttl`. -/
def rdbSet (fault : Bool) (now : Nat) (key value : String) (ttl : Nat) (w : World) : World :=
  if fault then w
  else { w with cache :=
          (key, (value, now + ttl)) :: w.cache.filter (fun e => decide (e.1 ≠ key)) }

/-- Value of the unexpired entry of `key`, if there is one. -/
def rdbLookup (now : Nat) (key : String) (cache : List (String × (String × Nat))) :
    Option String :=
  match cache.find? (fun e => decide (e.1 = key)) with
  | some e => if now < e.2.2 then some e.2.1 else none
  | none => none

/-- Redis `GET key`: an error (`none`) when the client fails or no unexpired entry exists. -/
def rdbGet (fault : Bool) (now : Nat) (key : String) (w : World) : Option String :=
  if fault then none else rdbLookup now key w.cache

/-- NATS `nc.Publish(subject, payload)`. -/
def Publish (fault : Bool) (subject payload : String) (w : World) : World :=
  if fault then w else { w with published := w.published ++ [(subject, payload)] }

/-! ## Handlers -/

/-- Gin `c.DefaultQuery(key, def)` on the raw query value (`none`: key absent). -/
def DefaultQuery (raw : Option String) (dflt : String) : String := raw.getD dflt

/-- `GET /products` (`main.go` 205-229). -/
def GetProductsHandler (pageQ limitQ : Option String) (w : World) : Result :=
  let pe := Atoi (DefaultQuery pageQ "1")
  let page : Int := if pe.2 && decide (pe.1 < 1) then 1 else pe.1
  let le := Atoi (DefaultQuery limitQ "10")
  let limit : Int := if le.2 && decide (le.1 < 1) then 10 else le.1
  let offset : Int := wrapInt (wrapInt (page - 1) * limit)
  let products := dbFind limit offset w
  { resp := { status := 200,
              body := Body.products "get-products" "Products fetched successfully" products },
    world := w,
    calls := [Call.dbFind limit offset] }

/-- The statements `buffer := make([]byte, fileSize); file.Read(buffer)`: the buffer holds
the first `fileSize` bytes of the content, zero-filled when the content is shorter. -/
def readBuffer (content : List Nat) (fileSize : Nat) : List Nat :=
  content.take fileSize ++ List.replicate (fileSize - content.length) 0

/-- `POST /products` (`main.go` 232-320). -/
def CreateProductHandler (env : Env) (f : Faults) (now : Nat) (dto : CreateProductDto)
    (w : World) : Result :=
  -- 1.1 binding: both form fields are required
  match dto.ProductPhoto with
  | none =>
    { resp := { status := 400, body := Body.error "request-binding" "Invalid request body" },
      world := w, calls := [] }
  | some fileHeader =>
  if dto.Name = "" then
    { resp := { status := 400, body := Body.error "request-binding" "Invalid request body" },
      world := w, calls := [] }
  -- 1.2 validation: min=1, max=255
  else if dto.Name.length < 1 ∨ 255 < dto.Name.length then
    { resp := { status := 400, body := Body.error "request-validation" "Invalid request body" },
      world := w, calls := [] }
  -- 2 open the uploaded file
  else if f.fileOpen then
    { resp := { status := 400, body := Body.error "file-open" "Ensure validate file." },
      world := w, calls := [] }
  else
    let fileSize := fileHeader.Size
    let fileName := fileHeader.Filename
    -- 3 upload
    let buffer := readBuffer fileHeader.content fileSize
    let obj : S3Object :=
      { Body := buffer, ContentLength := (fileSize : Int),
        ContentType := env.DetectContentType buffer, ContentDisposition := "attachment" }
    let w1 := PutObject f.PutObject env.s3Public fileName obj w
    if f.PutObject then
      { resp := { status := 500,
                  body := Body.error "file-upload-cdn" "Error uploading file to CDN" },
        world := w1, calls := [Call.PutObject env.s3Public fileName] }
    else
      let imageRealUrl := env.s3Endpoint ++ "/" ++ env.s3Public ++ "/" ++ fileName
      -- 4 database row
      let product0 : Product := { Model := none, Name := dto.Name, PhotoKey := imageRealUrl }
      let cr := dbCreate f.dbCreate now product0 w1
      let product := cr.1
      let w2 := cr.2
      -- line 294 reads `product.ID` through the embedded pointer
      match product.Model with
      | none =>
        { resp := recovered, world := w2,
          calls := [Call.PutObject env.s3Public fileName, Call.dbCreate dto.Name imageRealUrl] }
      | some model =>
      if model.ID = 0 then
        { resp := { status := 500,
                    body := Body.error "database-error" "Error creating product on database" },
          world := w2,
          calls := [Call.PutObject env.s3Public fileName, Call.dbCreate dto.Name imageRealUrl] }
      else
        -- 5 cache entry for 60 seconds, then the event; both results are discarded
        let productId := Itoa (uintToInt model.ID)
        let w3 := rdbSet f.rdbSet now productId fileName 60 w2
        let w4 := Publish f.Publish "product.created" product.Name w3
        -- 6 response
        { resp := { status := 200,
                    body := Body.created "create-product"
                      ("File uploaded successfully " ++ fileName) product productId
                      ("/cache/" ++ productId) imageRealUrl },
          world := w4,
          calls := [Call.PutObject env.s3Public fileName, Call.dbCreate dto.Name imageRealUrl,
                    Call.rdbSet productId fileName 60,
                    Call.Publish "product.created" product.Name] }

/-- `GET /cache/:cache_id` (`main.go` 323-352). -/
def GetProductByCacheIdHandler (env : Env) (f : Faults) (now : Nat) (key : String)
    (w : World) : Result :=
  -- 1 look the key up in redis
  match rdbGet f.rdbGet now key w with
  | none =>
    { resp := { status := 404, body := Body.error "file-cache" "File not found in Redis" },
      world := w, calls := [Call.rdbGet key] }
  | some productPath =>
    -- 2 get the file from s3
    match GetObject f.GetObject env.s3Public productPath w with
    | none =>
      { resp := { status := 404,
                  body := Body.error "file-not-exist"
                    "Error getting file! Is the file exist, or is the key correct?" },
        world := w, calls := [Call.rdbGet key, Call.GetObject env.s3Public productPath] }
    | some result =>
      -- 3 write the file to the response
      { resp := { status := 200,
                  body := Body.data ("attachment; filename=" ++ productPath)
                    result.ContentLength result.ContentType result.Body },
        world := w, calls := [Call.rdbGet key, Call.GetObject env.s3Public productPath] }

/-- `DELETE /products/:id` (`main.go` 355-417). -/
def DeleteProductHandler (env : Env) (f : Faults) (now : Nat) (idParam : String)
    (w : World) : Result :=
  -- 1 id from the url
  let ie := Atoi idParam
  if ie.2 then
    { resp := { status := 400, body := Body.error "request-validation" "Invalid product id" },
      world := w, calls := [] }
  else
    let id := ie.1
    -- 2 product from the database
    let product := dbFirst id w
    -- line 369 reads `product.ID` through the embedded pointer
    match product.Model with
    | none => { resp := recovered, world := w, calls := [Call.dbFirst id] }
    | some model =>
    if model.ID = 0 then
      { resp := { status := 404,
                  body := Body.error "product-not-found" "Product not found in database" },
        world := w, calls := [Call.dbFirst id] }
    else
      -- 3 delete the image from s3
      let w1 := DeleteObject f.DeleteObject env.s3Public product.PhotoKey w
      if f.DeleteObject then
        { resp := { status := 500,
                    body := Body.error "file-delete-cdn" "Error deleting file from CDN" },
          world := w1,
          calls := [Call.dbFirst id, Call.DeleteObject env.s3Public product.PhotoKey] }
      else
        -- 4 delete the row and check
        let tx := dbDelete f.dbDelete now product w1
        let calls := [Call.dbFirst id, Call.DeleteObject env.s3Public product.PhotoKey,
                      Call.dbDelete model.ID]
        match tx.1 with
        | some DbError.ErrRecordNotFound =>
          { resp := { status := 404,
                      body := Body.error "product-not-found" "Product not found" },
            world := tx.2, calls := calls }
        | some DbError.other =>
          { resp := { status := 500,
                      body := Body.error "database-error" "Error deleting product" },
            world := tx.2, calls := calls }
        | none =>
          -- 5 response
          { resp := { status := 200,
                      body := Body.deleted "delete-product" "Product deleted successfully" },
            world := tx.2, calls := calls }

/-! ## Vocabulary of the statements -/

/-- The durable URL of line 286: `s3Endpoint + "/" + s3Public + "/" + fileName`. -/
def imageRealUrl (env : Env) (fileName : String) : String :=
  env.s3Endpoint ++ "/" ++ env.s3Public ++ "/" ++ fileName

/-- The object a request uploads: all bytes of the file, their count, the sniffed type. -/
def uploadedObject (env : Env) (fh : FileHeader) : S3Object :=
  { Body := fh.content, ContentLength := (fh.content.length : Int),
    ContentType := env.DetectContentType fh.content, ContentDisposition := "attachment" }

/-- The row a successful create inserts in world `w`. -/
def createdProduct (env : Env) (now : Nat) (name : String) (fh : FileHeader) (w : World) :
    Product :=
  { Model := some { ID := w.lastId + 1, CreatedAt := now, UpdatedAt := now,
                    DeletedAt := none },
    Name := name, PhotoKey := imageRealUrl env fh.Filename }

/-- A valid `(name, file)` input: the file `fh` is present, the name has 1 to 255 characters. -/
def ValidUpload (dto : CreateProductDto) (fh : FileHeader) : Prop :=
  dto.ProductPhoto = some fh ∧ dto.Name ≠ "" ∧ dto.Name.length ≤ 255

/-- The response is an error: a 4xx or 5xx status whose body is one of the error maps
`type` / `message`, or the bodiless 500 of a recovered panic. -/
def Response.isError (r : Response) : Prop :=
  400 ≤ r.status ∧ ((∃ t m, r.body = Body.error t m) ∨ r = recovered)

/-- The slice of the specification: of the rows in insertion order, those at positions
`(page-1)*limit + 1` through `page*limit`. -/
def pageSlice (rows : List Product) (page limit : Int) : List Product :=
  (rows.drop ((page - 1) * limit).toNat).take limit.toNat

/-! ## Fixtures -/

/-- A configuration for examples; its content sniffer agrees with `http.DetectContentType`
on data that starts with the 8-byte PNG signature. -/
def env0 : Env :=
  { s3Public := "public", s3Endpoint := "http://localhost:9000",
    DetectContentType := fun b => if b.take 8 = [137, 80, 78, 71, 13, 10, 26, 10] then "image/png"
                                  else "application/octet-stream" }

/-- The empty backends. -/
def World.empty : World :=
  { objects := [], products := [], lastId := 0, cache := [], published := [] }

/-- The upload of the end-to-end scenario: product "Chair" with a file holding the PNG
signature. -/
def chairDto : CreateProductDto :=
  { Name := "Chair",
    ProductPhoto := some { Filename := "chair.png", content := [137, 80, 78, 71, 13, 10, 26, 10] } }

/-- The file of `chairDto`. -/
def chairFile : FileHeader :=
  { Filename := "chair.png", content := [137, 80, 78, 71, 13, 10, 26, 10] }

/-- The row created for `chairDto` at time 100 in the empty world. -/
def chairProduct : Product :=
  { Model := some { ID := 1, CreatedAt := 100, UpdatedAt := 100, DeletedAt := none },
    Name := "Chair", PhotoKey := "http://localhost:9000/public/chair.png" }

/-- The world after `chairDto` was created at time 100 in the empty world, no call failing. -/
def chairWorld : World :=
  (CreateProductHandler env0 Faults.none 100 chairDto World.empty).world

/-- Row number `i + 1` of the sample table. -/
def sampleProduct (i : Nat) : Product :=
  { Model := some { ID := i + 1, CreatedAt := 0, UpdatedAt := 0, DeletedAt := none },
    Name := "p", PhotoKey := "k" }

/-- A world whose table holds `n` live rows with ids `1 .. n`. -/
def sampleWorld (n : Nat) : World :=
  { World.empty with products := (List.range n).map sampleProduct, lastId := n }

/-! ## Lemmas on the backends -/

theorem readBuffer_self (c : List Nat) : readBuffer c c.length = c := by
  simp [readBuffer]

theorem uintToInt_of_lt (n : Nat) (h : n < 2 ^ 63) : uintToInt n = (n : Int) := by
  unfold uintToInt wrapInt
  omega

theorem length_pos_of_ne_empty (s : String) (h : s ≠ "") : 1 ≤ s.length := by
  rcases s with ⟨l⟩
  cases l with
  | nil => exact absurd rfl h
  | cons a t => simp [String.length]

theorem url_ne_key (a b k : String) : a ++ "/" ++ b ++ "/" ++ k ≠ k := by
  intro h
  have h1 := congrArg String.length h
  have h2 : ("/" : String).length = 1 := rfl
  simp only [String.length_append, h2] at h1
  omega

theorem find?_filter_of_imp {α : Type} (p q : α → Bool) (l : List α)
    (h : ∀ x, p x = true → q x = true) : (l.filter q).find? p = l.find? p := by
  induction l with
  | nil => rfl
  | cons a t ih =>
    by_cases hq : q a = true
    · rw [List.filter_cons_of_pos hq, List.find?_cons, List.find?_cons, ih]
    · have hp : p a = false := by
        cases hpa : p a with
        | false => rfl
        | true => exact absurd (h a hpa) hq
      rw [List.filter_cons_of_neg hq, List.find?_cons, hp, ih]

theorem lookupObject_cons_self (b k : String) (o : S3Object)
    (rest : List ((String × String) × S3Object)) :
    lookupObject b k (((b, k), o) :: rest) = some o := by
  simp [lookupObject]

theorem lookupObject_filter_ne (b k b' k' : String) (objs : List ((String × String) × S3Object))
    (h : (b, k) ≠ (b', k')) :
    lookupObject b k (objs.filter (fun e => decide (e.1 ≠ (b', k')))) = lookupObject b k objs := by
  unfold lookupObject
  rw [find?_filter_of_imp]
  intro x hx
  have hx' : x.1 = (b, k) := of_decide_eq_true hx
  exact decide_eq_true (by rw [hx']; exact h)

theorem rdbLookup_cons_self (now : Nat) (k v : String) (exp : Nat)
    (rest : List (String × (String × Nat))) :
    rdbLookup now k ((k, (v, exp)) :: rest) = if now < exp then some v else none := by
  simp [rdbLookup]

/-! ## `strconv` round trip -/

theorem digitChar_isDecDigit (k : Nat) (h : k < 10) :
    isDecDigit (Nat.digitChar k) = true ∧ (Nat.digitChar k).toNat - 48 = k := by
  interval_cases k <;> exact ⟨by decide, by decide⟩

theorem digitsValue_snoc (l : List Char) (c : Char) :
    digitsValue (l ++ [c]) = 10 * digitsValue l + (c.toNat - 48) := by
  simp [digitsValue, List.foldl_append]

theorem toDigitsCore_spec (fuel : Nat) : ∀ (n : Nat) (ds : List Char), n < fuel →
    ∃ pre : List Char, Nat.toDigitsCore 10 fuel n ds = pre ++ ds ∧ pre ≠ [] ∧
      pre.all isDecDigit = true ∧ digitsValue pre = n := by
  induction fuel with
  | zero => intro n ds h; omega
  | succ fuel ih =>
    intro n ds h
    have hd := digitChar_isDecDigit (n % 10) (Nat.mod_lt _ (by decide))
    by_cases h0 : n / 10 = 0
    · refine ⟨[Nat.digitChar (n % 10)], ?_, by simp, by simp [hd.1], ?_⟩
      · simp [Nat.toDigitsCore, h0]
      · have : digitsValue [Nat.digitChar (n % 10)] = (Nat.digitChar (n % 10)).toNat - 48 := by
          simp [digitsValue]
        rw [this, hd.2]
        omega
    · have hlt : n / 10 < fuel := by omega
      obtain ⟨pre, hpre, hne, hall, hval⟩ := ih (n / 10) (Nat.digitChar (n % 10) :: ds) hlt
      refine ⟨pre ++ [Nat.digitChar (n % 10)], ?_, by simp, ?_, ?_⟩
      · simp [Nat.toDigitsCore, h0, hpre]
      · simp [List.all_append, hall, hd.1]
      · rw [digitsValue_snoc, hval, hd.2]
        omega

theorem splitSign_digit (c : Char) (rest : List Char) (h : isDecDigit c = true) :
    splitSign (c :: rest) = (false, c :: rest) := by
  unfold splitSign
  split
  · rename_i heq
    injection heq with hc _
    rw [hc] at h
    exact absurd h (by decide)
  · rename_i heq
    injection heq with hc _
    rw [hc] at h
    exact absurd h (by decide)
  · rfl

/-- Parsing the decimal rendering of an `int`-sized natural number gives it back. -/
theorem Atoi_Itoa_nat (n : Nat) (h : n < 2 ^ 63) : Atoi (Itoa (n : Int)) = ((n : Int), false) := by
  obtain ⟨pre, hpre, hne, hall, hval⟩ := toDigitsCore_spec (n + 1) n [] (Nat.lt_succ_self n)
  have hs : (Itoa (n : Int)).toList = pre := by
    show (toString (Int.ofNat n)).toList = pre
    simp only [toString, Nat.repr, Nat.toDigits, hpre]
    simp [List.asString]
  cases pre with
  | nil => exact absurd rfl hne
  | cons c rest =>
    have hc : isDecDigit c = true := by
      simp only [List.all_cons, Bool.and_eq_true] at hall
      exact hall.1
    unfold Atoi
    simp only [hs, splitSign_digit c rest hc, hall, hval]
    have h63 : ¬ (2 ^ 63 ≤ n) := by omega
    simp only [List.isEmpty_cons, Bool.not_true, Bool.or_self, Bool.false_eq_true, if_false,
      h63]

/-! ## The branches of `CreateProductHandler` -/

theorem insertFails_PutObject (fl : Option CreateError) (pf : Bool) (b k : String)
    (o : S3Object) (w : World) :
    insertFails fl (PutObject pf b k o w) = insertFails fl w := by
  cases pf <;> simp [insertFails, PutObject]

/-- A successful insert had no client error, an id below 2^63 and a fresh primary key. -/
theorem insertFails_false (fl : Option CreateError) (w : World)
    (h : insertFails fl w = false) :
    fl = none ∧ w.lastId + 1 < 2 ^ 63 ∧ ∀ r ∈ w.products, r.ID ≠ w.lastId + 1 := by
  simp only [insertFails, Bool.or_eq_false_iff, decide_eq_false_iff_not, List.any_eq_false,
    decide_eq_true_eq] at h
  obtain ⟨⟨h1, h2⟩, h3⟩ := h
  refine ⟨?_, ?_, fun r hr => h3 r hr⟩
  · cases fl with
    | none => rfl
    | some e => simp at h1
  · simp only [maxSerial] at h2
    omega

theorem create_put_fault (env : Env) (f : Faults) (now : Nat) (dto : CreateProductDto)
    (fh : FileHeader) (w : World) (hv : ValidUpload dto fh) (ho : f.fileOpen = false)
    (hput : f.PutObject = true) :
    CreateProductHandler env f now dto w =
      { resp := { status := 500,
                  body := Body.error "file-upload-cdn" "Error uploading file to CDN" },
        world := w, calls := [Call.PutObject env.s3Public fh.Filename] } := by
  obtain ⟨hp, hn, hl⟩ := hv
  have h1 := length_pos_of_ne_empty _ hn
  have h2 : ¬ (dto.Name.length < 1 ∨ 255 < dto.Name.length) := by omega
  unfold CreateProductHandler
  simp only [hp, hn, h2, ho, hput, PutObject, if_true, if_false]
  simp

/-- A failing `db.Create`: the panic of line 294 when the struct was left untouched, the
`database-error` map when the struct keeps the zero id. -/
theorem create_insert_fault (env : Env) (f : Faults) (now : Nat) (dto : CreateProductDto)
    (fh : FileHeader) (w : World) (hv : ValidUpload dto fh) (ho : f.fileOpen = false)
    (hput : f.PutObject = false) (hins : insertFails f.dbCreate w = true) :
    CreateProductHandler env f now dto w =
      { resp := if f.dbCreate = some CreateError.untouched then recovered
                else { status := 500,
                       body := Body.error "database-error"
                         "Error creating product on database" },
        world := PutObject false env.s3Public fh.Filename (uploadedObject env fh) w,
        calls := [Call.PutObject env.s3Public fh.Filename,
                  Call.dbCreate dto.Name (imageRealUrl env fh.Filename)] } := by
  obtain ⟨hp, hn, hl⟩ := hv
  have h1 := length_pos_of_ne_empty _ hn
  have h2 : ¬ (dto.Name.length < 1 ∨ 255 < dto.Name.length) := by omega
  unfold CreateProductHandler
  simp only [hp, hn, h2, ho, hput, if_true, if_false, FileHeader.Size, readBuffer_self]
  by_cases hm : f.dbCreate = some CreateError.untouched
  · simp [dbCreate, hm, uploadedObject, imageRealUrl]
  · simp [dbCreate, hm, insertFails_PutObject, hins, stamp, uploadedObject, imageRealUrl]

theorem create_ok (env : Env) (f : Faults) (now : Nat) (dto : CreateProductDto)
    (fh : FileHeader) (w : World) (hv : ValidUpload dto fh) (ho : f.fileOpen = false)
    (hput : f.PutObject = false) (hins : insertFails f.dbCreate w = false) :
    CreateProductHandler env f now dto w =
      { resp := { status := 200,
                  body := Body.created "create-product"
                    ("File uploaded successfully " ++ fh.Filename)
                    (createdProduct env now dto.Name fh w)
                    (Itoa ((w.lastId + 1 : Nat) : Int))
                    ("/cache/" ++ Itoa ((w.lastId + 1 : Nat) : Int))
                    (imageRealUrl env fh.Filename) },
        world := Publish f.Publish "product.created" dto.Name
          (rdbSet f.rdbSet now (Itoa ((w.lastId + 1 : Nat) : Int)) fh.Filename 60
            { PutObject false env.s3Public fh.Filename (uploadedObject env fh) w with
              products := w.products ++ [createdProduct env now dto.Name fh w],
              lastId := w.lastId + 1 }),
        calls := [Call.PutObject env.s3Public fh.Filename,
                  Call.dbCreate dto.Name (imageRealUrl env fh.Filename),
                  Call.rdbSet (Itoa ((w.lastId + 1 : Nat) : Int)) fh.Filename 60,
                  Call.Publish "product.created" dto.Name] } := by
  obtain ⟨hp, hn, hl⟩ := hv
  have h1 := length_pos_of_ne_empty _ hn
  have h2 : ¬ (dto.Name.length < 1 ∨ 255 < dto.Name.length) := by omega
  have h4 : w.lastId + 1 < 2 ^ 63 := by
    exact (insertFails_false _ _ hins).2.1
  have h5 : uintToInt (w.lastId + 1) = ((w.lastId + 1 : Nat) : Int) := uintToInt_of_lt _ h4
  have h6 : f.dbCreate = none := (insertFails_false _ _ hins).1
  have h7 : insertFails none w = false := h6 ▸ hins
  unfold CreateProductHandler
  simp only [hp, hn, h2, ho, hput, if_true, if_false, FileHeader.Size, readBuffer_self]
  simp only [dbCreate, insertFails_PutObject, h6, h7, reduceCtorEq, Bool.false_eq_true,
    if_false]
  simp [uploadedObject, imageRealUrl, createdProduct, h5, PutObject]

theorem create_rejected (env : Env) (f : Faults) (now : Nat) (dto : CreateProductDto)
    (w : World) (h : f.fileOpen = true ∨ ∀ fh, ¬ ValidUpload dto fh) :
    (CreateProductHandler env f now dto w).resp.status = 400 ∧
    (CreateProductHandler env f now dto w).resp.isError ∧
    (CreateProductHandler env f now dto w).world = w ∧
    (CreateProductHandler env f now dto w).calls = [] := by
  unfold CreateProductHandler Response.isError
  cases hp : dto.ProductPhoto with
  | none => simp
  | some fh =>
    by_cases hn : dto.Name = ""
    · simp [hn]
    · by_cases hl : dto.Name.length < 1 ∨ 255 < dto.Name.length
      · simp only [if_neg hn, if_pos hl]
        simp
      · rcases h with ho | hv
        · simp only [if_neg hn, if_neg hl, ho, if_true]
          simp
        · exact absurd ⟨hp, hn, by omega⟩ (hv fh)

/-- The answer to a failing `db.Create` is an error in both failure modes. -/
theorem insert_fault_resp_isError (fl : Option CreateError) :
    (if fl = some CreateError.untouched then recovered
     else ({ status := 500,
             body := Body.error "database-error" "Error creating product on database" } :
             Response)).isError ∧
    (if fl = some CreateError.untouched then recovered
     else ({ status := 500,
             body := Body.error "database-error" "Error creating product on database" } :
             Response)).status = 500 := by
  by_cases h : fl = some CreateError.untouched
  · rw [if_pos h]
    exact ⟨⟨by decide, Or.inr rfl⟩, rfl⟩
  · rw [if_neg h]
    exact ⟨⟨by decide, Or.inl ⟨_, _, rfl⟩⟩, rfl⟩

/-- The ways a run of `CreateProductHandler` can go. -/
theorem create_cases (f : Faults) (dto : CreateProductDto) (w : World) :
    (f.fileOpen = true ∨ ∀ fh, ¬ ValidUpload dto fh) ∨
    ∃ fh, ValidUpload dto fh ∧ f.fileOpen = false ∧
      (f.PutObject = true ∨
       (f.PutObject = false ∧ insertFails f.dbCreate w = true) ∨
       (f.PutObject = false ∧ insertFails f.dbCreate w = false)) := by
  by_cases ho : f.fileOpen = true
  · exact Or.inl (Or.inl ho)
  · by_cases hv : ∃ fh, ValidUpload dto fh
    · obtain ⟨fh, hfh⟩ := hv
      refine Or.inr ⟨fh, hfh, by simpa using ho, ?_⟩
      cases f.PutObject <;> cases insertFails f.dbCreate w <;> simp
    · exact Or.inl (Or.inr (fun fh hfh => hv ⟨fh, hfh⟩))

theorem lookupObject_PutObject (b k : String) (o : S3Object) (w : World) :
    lookupObject b k (PutObject false b k o w).objects = some o := by
  simp [PutObject, lookupObject]

theorem Publish_fields (pf : Bool) (s p : String) (w : World) :
    (Publish pf s p w).objects = w.objects ∧ (Publish pf s p w).products = w.products ∧
    (Publish pf s p w).lastId = w.lastId ∧ (Publish pf s p w).cache = w.cache := by
  cases pf <;> simp [Publish]

theorem rdbSet_fields (sf : Bool) (now : Nat) (k v : String) (ttl : Nat) (w : World) :
    (rdbSet sf now k v ttl w).objects = w.objects ∧ (rdbSet sf now k v ttl w).products = w.products ∧
    (rdbSet sf now k v ttl w).lastId = w.lastId ∧
    (rdbSet sf now k v ttl w).published = w.published := by
  cases sf <;> simp [rdbSet]

theorem PutObject_fields (pf : Bool) (b k : String) (o : S3Object) (w : World) :
    (PutObject pf b k o w).products = w.products ∧ (PutObject pf b k o w).lastId = w.lastId ∧
    (PutObject pf b k o w).cache = w.cache ∧ (PutObject pf b k o w).published = w.published := by
  cases pf <;> simp [PutObject]

/-- C2: for every request, world and outcome of the backend calls, `CreateProductHandler`
either answers 200 with a product of non-zero id while the object store holds the uploaded
bytes under the file name in bucket `s3Public` (the bucket inside the returned
`image_real_url`), or answers with an error (a 4xx/5xx error map, or the bodiless 500 of the
panic at line 294 when `db.Create` failed without touching the struct) and leaves the table
`products` (and its id sequence) as it was.  When `PutObject` fails for a valid upload the
answer is the 500 `file-upload-cdn` error and `PutObject` is the only backend call made. -/
theorem C2_create_success_or_no_row (env : Env) (f : Faults) (now : Nat)
    (dto : CreateProductDto) (w : World) :
    ((∃ fh p msg cid tmp, dto.ProductPhoto = some fh ∧
        (CreateProductHandler env f now dto w).resp =
          { status := 200,
            body := Body.created "create-product" msg p cid tmp
              (env.s3Endpoint ++ "/" ++ env.s3Public ++ "/" ++ fh.Filename) } ∧
        p.ID ≠ 0 ∧
        lookupObject env.s3Public fh.Filename (CreateProductHandler env f now dto w).world.objects
          = some { Body := fh.content, ContentLength := (fh.content.length : Int),
                   ContentType := env.DetectContentType fh.content,
                   ContentDisposition := "attachment" }) ∨
     (400 ≤ (CreateProductHandler env f now dto w).resp.status ∧
        (CreateProductHandler env f now dto w).resp.status ≠ 200 ∧
        (CreateProductHandler env f now dto w).resp.isError ∧
        (CreateProductHandler env f now dto w).world.products = w.products ∧
        (CreateProductHandler env f now dto w).world.lastId = w.lastId)) ∧
    (∀ fh, ValidUpload dto fh → f.fileOpen = false → f.PutObject = true →
      (CreateProductHandler env f now dto w).resp =
          { status := 500,
            body := Body.error "file-upload-cdn" "Error uploading file to CDN" } ∧
      (CreateProductHandler env f now dto w).calls = [Call.PutObject env.s3Public fh.Filename] ∧
      (CreateProductHandler env f now dto w).world = w) := by
  refine ⟨?_, ?_⟩
  · rcases create_cases f dto w with hrej | ⟨fh, hv, ho, hput | ⟨hput, hins⟩ | ⟨hput, hins⟩⟩
    · obtain ⟨h1, h2, h3, _⟩ := create_rejected env f now dto w hrej
      exact Or.inr ⟨by omega, by omega, h2, by rw [h3], by rw [h3]⟩
    · rw [create_put_fault env f now dto fh w hv ho hput]
      exact Or.inr ⟨by show 400 ≤ 500; omega, by show 500 ≠ 200; omega,
        ⟨by show 400 ≤ 500; omega, Or.inl ⟨_, _, rfl⟩⟩, rfl, rfl⟩
    · rw [create_insert_fault env f now dto fh w hv ho hput hins]
      obtain ⟨he, hs⟩ := insert_fault_resp_isError f.dbCreate
      exact Or.inr ⟨by rw [hs]; omega, by rw [hs]; omega, he, (PutObject_fields _ _ _ _ _).1,
        (PutObject_fields _ _ _ _ _).2.1⟩
    · rw [create_ok env f now dto fh w hv ho hput hins]
      refine Or.inl ⟨fh, createdProduct env now dto.Name fh w, _, _, _, hv.1, rfl, ?_, ?_⟩
      · simp [createdProduct, Product.ID]
      · show lookupObject env.s3Public fh.Filename (Publish _ _ _ (rdbSet _ _ _ _ _ _)).objects = _
        rw [(Publish_fields _ _ _ _).1, (rdbSet_fields _ _ _ _ _ _).1]
        exact lookupObject_PutObject _ _ _ _
  · intro fh hv ho hput
    rw [create_put_fault env f now dto fh w hv ho hput]
    exact ⟨rfl, rfl, rfl⟩

theorem create_200_inv (env : Env) (f : Faults) (now : Nat) (dto : CreateProductDto)
    (w : World) (h : (CreateProductHandler env f now dto w).resp.status = 200) :
    ∃ fh, ValidUpload dto fh ∧ f.fileOpen = false ∧ f.PutObject = false ∧
      insertFails f.dbCreate w = false := by
  rcases create_cases f dto w with hrej | ⟨fh, hv, ho, hput | ⟨hput, hins⟩ | ⟨hput, hins⟩⟩
  · have := (create_rejected env f now dto w hrej).1
    omega
  · rw [create_put_fault env f now dto fh w hv ho hput] at h
    simp at h
  · rw [create_insert_fault env f now dto fh w hv ho hput hins] at h
    have hs := (insert_fault_resp_isError f.dbCreate).2
    rw [hs] at h
    omega
  · exact ⟨fh, hv, ho, hput, hins⟩

/-- For a struct created with a nil `Model`, `db.Create` leaves a readable zero id exactly
when the insert fails otherwise than before gorm touches the struct. -/
theorem dbCreate_keeps_zero_id_iff (fl : Option CreateError) (now : Nat) (name key : String)
    (w : World) :
    (∃ m, (dbCreate fl now { Model := none, Name := name, PhotoKey := key } w).1.Model = some m
        ∧ m.ID = 0) ↔
      (insertFails fl w = true ∧ fl ≠ some CreateError.untouched) := by
  unfold dbCreate
  by_cases hu : fl = some CreateError.untouched
  · simp [hu]
  · by_cases hi : insertFails fl w = true
    · simp [hu, hi, stamp]
    · simp [hu, hi]

/-- C10: for a valid upload whose `PutObject` and `db.Create` succeed, the response of
`CreateProductHandler` is the 200 `create-product` map and is the same for every outcome of
`rdb.Set` and of `Publish`; so are the backend calls, the object store and the table, which
hold the uploaded object and the new row. -/
theorem C10_best_effort_steps (env : Env) (f : Faults) (now : Nat) (dto : CreateProductDto)
    (w : World) (fh : FileHeader) (setFails publishFails : Bool)
    (hv : ValidUpload dto fh) (ho : f.fileOpen = false) (hput : f.PutObject = false)
    (hins : insertFails f.dbCreate w = false) :
    (CreateProductHandler env { f with rdbSet := setFails, Publish := publishFails } now dto w).resp
      = (CreateProductHandler env f now dto w).resp ∧
    (CreateProductHandler env f now dto w).resp =
      { status := 200,
        body := Body.created "create-product" ("File uploaded successfully " ++ fh.Filename)
          (createdProduct env now dto.Name fh w) (Itoa ((w.lastId + 1 : Nat) : Int))
          ("/cache/" ++ Itoa ((w.lastId + 1 : Nat) : Int))
          (env.s3Endpoint ++ "/" ++ env.s3Public ++ "/" ++ fh.Filename) } ∧
    (CreateProductHandler env { f with rdbSet := setFails, Publish := publishFails } now dto w).calls
      = (CreateProductHandler env f now dto w).calls ∧
    (CreateProductHandler env { f with rdbSet := setFails, Publish := publishFails } now dto
        w).world.products = w.products ++ [createdProduct env now dto.Name fh w] ∧
    lookupObject env.s3Public fh.Filename
      (CreateProductHandler env { f with rdbSet := setFails, Publish := publishFails } now dto
        w).world.objects = some (uploadedObject env fh) := by
  rw [create_ok env { f with rdbSet := setFails, Publish := publishFails } now dto fh w hv ho hput
    hins, create_ok env f now dto fh w hv ho hput hins]
  refine ⟨rfl, rfl, rfl, ?_, ?_⟩
  · show (Publish _ _ _ (rdbSet _ _ _ _ _ _)).products = _
    rw [(Publish_fields _ _ _ _).2.1, (rdbSet_fields _ _ _ _ _ _).2.1]
  · show lookupObject _ _ (Publish _ _ _ (rdbSet _ _ _ _ _ _)).objects = _
    rw [(Publish_fields _ _ _ _).1, (rdbSet_fields _ _ _ _ _ _).1]
    exact lookupObject_PutObject _ _ _ _

/-! ## `GetProductByCacheIdHandler` -/

theorem read_miss (env : Env) (f : Faults) (now : Nat) (key : String) (w : World)
    (h : rdbGet f.rdbGet now key w = none) :
    GetProductByCacheIdHandler env f now key w =
      { resp := { status := 404, body := Body.error "file-cache" "File not found in Redis" },
        world := w, calls := [Call.rdbGet key] } := by
  unfold GetProductByCacheIdHandler
  simp only [h]

theorem read_hit (env : Env) (f : Faults) (now : Nat) (key path : String) (w : World)
    (o : S3Object) (h : rdbGet f.rdbGet now key w = some path)
    (ho : GetObject f.GetObject env.s3Public path w = some o) :
    GetProductByCacheIdHandler env f now key w =
      { resp := { status := 200,
                  body := Body.data ("attachment; filename=" ++ path) o.ContentLength
                    o.ContentType o.Body },
        world := w, calls := [Call.rdbGet key, Call.GetObject env.s3Public path] } := by
  unfold GetProductByCacheIdHandler
  simp only [h, ho]

theorem read_world (env : Env) (f : Faults) (now : Nat) (key : String) (w : World) :
    (GetProductByCacheIdHandler env f now key w).world = w := by
  unfold GetProductByCacheIdHandler
  split
  · rfl
  · split <;> rfl

/-- The cache and the object store after a successful create whose cache write succeeded. -/
theorem create_ok_stores (env : Env) (f : Faults) (now : Nat) (dto : CreateProductDto)
    (fh : FileHeader) (w : World) (hv : ValidUpload dto fh) (ho : f.fileOpen = false)
    (hput : f.PutObject = false) (hins : insertFails f.dbCreate w = false) :
    (CreateProductHandler env f now dto w).world.objects =
      ((env.s3Public, fh.Filename), uploadedObject env fh) ::
        w.objects.filter (fun e => decide (e.1 ≠ (env.s3Public, fh.Filename))) ∧
    (CreateProductHandler env f now dto w).world.products =
      w.products ++ [createdProduct env now dto.Name fh w] ∧
    (CreateProductHandler env f now dto w).world.lastId = w.lastId + 1 ∧
    (f.rdbSet = false → (CreateProductHandler env f now dto w).world.cache =
      (Itoa ((w.lastId + 1 : Nat) : Int), (fh.Filename, now + 60)) ::
        w.cache.filter (fun e => decide (e.1 ≠ Itoa ((w.lastId + 1 : Nat) : Int)))) := by
  rw [create_ok env f now dto fh w hv ho hput hins]
  refine ⟨?_, ?_, ?_, ?_⟩
  · show (Publish _ _ _ (rdbSet _ _ _ _ _ _)).objects = _
    rw [(Publish_fields _ _ _ _).1, (rdbSet_fields _ _ _ _ _ _).1]
    simp [PutObject]
  · show (Publish _ _ _ (rdbSet _ _ _ _ _ _)).products = _
    rw [(Publish_fields _ _ _ _).2.1, (rdbSet_fields _ _ _ _ _ _).2.1]
  · show (Publish _ _ _ (rdbSet _ _ _ _ _ _)).lastId = _
    rw [(Publish_fields _ _ _ _).2.2.1, (rdbSet_fields _ _ _ _ _ _).2.2.1]
  · intro hs
    show (Publish _ _ _ (rdbSet _ _ _ _ _ _)).cache = _
    rw [(Publish_fields _ _ _ _).2.2.2, hs]
    simp [rdbSet, PutObject]

/-- What a 200 answer of `CreateProductHandler` tells about the run. -/
theorem create_200_fields (env : Env) (f : Faults) (now : Nat) (dto : CreateProductDto)
    (w : World) (fh : FileHeader) (p : Product) (ty msg c tmp url : String)
    (hphoto : dto.ProductPhoto = some fh)
    (h : (CreateProductHandler env f now dto w).resp =
      { status := 200, body := Body.created ty msg p c tmp url }) :
    ValidUpload dto fh ∧ f.fileOpen = false ∧ f.PutObject = false ∧
      insertFails f.dbCreate w = false ∧ p = createdProduct env now dto.Name fh w ∧
      c = Itoa ((w.lastId + 1 : Nat) : Int) ∧ w.lastId + 1 < 2 ^ 63 := by
  have hs : (CreateProductHandler env f now dto w).resp.status = 200 := by rw [h]
  obtain ⟨fh', hv, ho, hput, hins⟩ := create_200_inv env f now dto w hs
  have hfh : fh' = fh := by
    have := hv.1
    rw [hphoto] at this
    exact (Option.some.inj this).symm
  subst hfh
  rw [create_ok env f now dto fh' w hv ho hput hins] at h
  simp only [Response.mk.injEq, Body.created.injEq, true_and] at h
  have hlt : w.lastId + 1 < 2 ^ 63 := by
    exact (insertFails_false _ _ hins).2.1
  exact ⟨hv, ho, hput, hins, h.2.2.1.symm, h.2.2.2.1.symm, hlt⟩

/-- C7: when Redis holds no unexpired entry for the token, `GetProductByCacheIdHandler`
answers the 404 `file-cache` error, its only backend call is `rdb.Get` (neither the object
store nor the table is consulted), and the response is the same in every world with the same
cache.  An entry written by `CreateProductHandler` at time `t0` is such a miss from time
`t0 + 60` on, although the object and the row of the product are still there. -/
theorem C7_cache_miss_is_terminal (env : Env) (f : Faults) (now : Nat) (key : String)
    (w : World) (hmiss : rdbLookup now key w.cache = none) :
    GetProductByCacheIdHandler env f now key w =
      { resp := { status := 404, body := Body.error "file-cache" "File not found in Redis" },
        world := w, calls := [Call.rdbGet key] } ∧
    (∀ w2 : World, w2.cache = w.cache →
      (GetProductByCacheIdHandler env f now key w2).resp =
        (GetProductByCacheIdHandler env f now key w).resp ∧
      (GetProductByCacheIdHandler env f now key w2).calls = [Call.rdbGet key]) ∧
    (∀ (fc : Faults) (t0 : Nat) (dto : CreateProductDto) (fh : FileHeader) (p : Product)
        (msg c tmp url : String),
      dto.ProductPhoto = some fh →
      (CreateProductHandler env fc t0 dto w).resp =
        { status := 200, body := Body.created "create-product" msg p c tmp url } →
      fc.rdbSet = false → t0 + 60 ≤ now →
      (GetProductByCacheIdHandler env f now c (CreateProductHandler env fc t0 dto w).world).resp =
        { status := 404, body := Body.error "file-cache" "File not found in Redis" } ∧
      (GetProductByCacheIdHandler env f now c (CreateProductHandler env fc t0 dto w).world).calls
        = [Call.rdbGet c] ∧
      lookupObject env.s3Public fh.Filename (CreateProductHandler env fc t0 dto w).world.objects
        = some (uploadedObject env fh) ∧
      p ∈ (CreateProductHandler env fc t0 dto w).world.products ∧ live p = true ∧
      c = Itoa (p.ID : Int)) := by
  have hget : ∀ w2 : World, w2.cache = w.cache → rdbGet f.rdbGet now key w2 = none := by
    intro w2 hc
    unfold rdbGet
    cases f.rdbGet with
    | true => rfl
    | false => simp [hc, hmiss]
  refine ⟨read_miss env f now key w (hget w rfl), ?_, ?_⟩
  · intro w2 hc
    rw [read_miss env f now key w2 (hget w2 hc), read_miss env f now key w (hget w rfl)]
    exact ⟨rfl, rfl⟩
  · intro fc t0 dto fh p msg c tmp url hphoto hresp hset ht
    obtain ⟨hv, ho, hput, hins, hp, hc, _⟩ :=
      create_200_fields env fc t0 dto w fh p _ msg c tmp url hphoto hresp
    obtain ⟨hobj, hprod, _, hcache⟩ := create_ok_stores env fc t0 dto fh w hv ho hput hins
    have hmiss2 : rdbGet f.rdbGet now c (CreateProductHandler env fc t0 dto w).world = none := by
      unfold rdbGet
      cases f.rdbGet with
      | true => rfl
      | false =>
        simp only [Bool.false_eq_true, if_false]
        rw [hcache hset, hc, rdbLookup_cons_self]
        have : ¬ now < t0 + 60 := by omega
        simp [this]
    rw [read_miss env f now c _ hmiss2]
    refine ⟨rfl, rfl, ?_, ?_, ?_, ?_⟩
    · rw [hobj]
      exact lookupObject_cons_self _ _ _ _
    · rw [hprod, hp]
      simp
    · rw [hp]
      rfl
    · rw [hc, hp]
      rfl

/-- C4: after a successful create whose cache write succeeded, every read of the returned
`cache_id` before `t0 + 60` (with Redis and the object store answering) is a 200 whose body
is the uploaded content, whose length is the number of uploaded bytes and whose type is the
sniffed type of the content; the read leaves the world as it is, so a repeated read within
the window gives the same response. -/
theorem C4_create_read_round_trip (env : Env) (fc fr : Faults) (t0 t : Nat)
    (dto : CreateProductDto) (w : World) (fh : FileHeader) (p : Product)
    (msg c tmp url : String)
    (hphoto : dto.ProductPhoto = some fh)
    (hresp : (CreateProductHandler env fc t0 dto w).resp =
      { status := 200, body := Body.created "create-product" msg p c tmp url })
    (hset : fc.rdbSet = false) (ht : t < t0 + 60)
    (hr : fr.rdbGet = false) (hg : fr.GetObject = false) :
    (GetProductByCacheIdHandler env fr t c (CreateProductHandler env fc t0 dto w).world).resp =
      { status := 200,
        body := Body.data ("attachment; filename=" ++ fh.Filename) (fh.content.length : Int)
          (env.DetectContentType fh.content) fh.content } ∧
    (GetProductByCacheIdHandler env fr t c (CreateProductHandler env fc t0 dto w).world).world =
      (CreateProductHandler env fc t0 dto w).world ∧
    (∀ t2, t2 < t0 + 60 →
      (GetProductByCacheIdHandler env fr t2 c
        (GetProductByCacheIdHandler env fr t c
          (CreateProductHandler env fc t0 dto w).world).world).resp =
      (GetProductByCacheIdHandler env fr t c (CreateProductHandler env fc t0 dto w).world).resp) := by
  obtain ⟨hv, ho, hput, hins, _, hc, _⟩ :=
    create_200_fields env fc t0 dto w fh p _ msg c tmp url hphoto hresp
  obtain ⟨hobj, _, _, hcache⟩ := create_ok_stores env fc t0 dto fh w hv ho hput hins
  have hread : ∀ t2, t2 < t0 + 60 →
      GetProductByCacheIdHandler env fr t2 c (CreateProductHandler env fc t0 dto w).world =
        { resp := { status := 200,
                    body := Body.data ("attachment; filename=" ++ fh.Filename)
                      (fh.content.length : Int) (env.DetectContentType fh.content) fh.content },
          world := (CreateProductHandler env fc t0 dto w).world,
          calls := [Call.rdbGet c, Call.GetObject env.s3Public fh.Filename] } := by
    intro t2 ht2
    have h1 : rdbGet fr.rdbGet t2 c (CreateProductHandler env fc t0 dto w).world
        = some fh.Filename := by
      unfold rdbGet
      rw [hr, hcache hset, hc]
      simp [rdbLookup_cons_self, ht2]
    have h2 : GetObject fr.GetObject env.s3Public fh.Filename
        (CreateProductHandler env fc t0 dto w).world = some (uploadedObject env fh) := by
      unfold GetObject
      rw [hg, hobj]
      simp [lookupObject_cons_self]
    rw [read_hit env fr t2 c fh.Filename _ _ h1 h2]
    rfl
  refine ⟨by rw [hread t ht], read_world _ _ _ _ _, ?_⟩
  intro t2 ht2
  rw [read_world, hread t2 ht2, hread t ht]

/-! ## `DeleteProductHandler` -/

/-- A struct with a non-zero id has its `Model` allocated. -/
theorem model_of_ID_ne_zero (p : Product) (h : p.ID ≠ 0) :
    ∃ m, p.Model = some m ∧ m.ID = p.ID ∧ m.ID ≠ 0 := by
  cases hm : p.Model with
  | none => simp [Product.ID, hm] at h
  | some m =>
    have : p.ID = m.ID := by simp [Product.ID, hm]
    exact ⟨m, rfl, this.symm, this ▸ h⟩

theorem delete_blob_fault (env : Env) (f : Faults) (now : Nat) (idParam : String) (id : Int)
    (w : World) (hid : Atoi idParam = (id, false)) (hrow : (dbFirst id w).ID ≠ 0)
    (hfail : f.DeleteObject = true) :
    DeleteProductHandler env f now idParam w =
      { resp := { status := 500,
                  body := Body.error "file-delete-cdn" "Error deleting file from CDN" },
        world := w,
        calls := [Call.dbFirst id, Call.DeleteObject env.s3Public (dbFirst id w).PhotoKey] } := by
  obtain ⟨m, hm, _, hmz⟩ := model_of_ID_ne_zero _ hrow
  unfold DeleteProductHandler
  simp only [hid, Bool.false_eq_true, if_false, hm, if_neg hmz, hfail, if_true, DeleteObject]

theorem delete_proceeds (env : Env) (f : Faults) (now : Nat) (idParam : String) (id : Int)
    (w : World) (hid : Atoi idParam = (id, false)) (hrow : (dbFirst id w).ID ≠ 0)
    (hok : f.DeleteObject = false) :
    (DeleteProductHandler env f now idParam w).calls =
      [Call.dbFirst id, Call.DeleteObject env.s3Public (dbFirst id w).PhotoKey,
       Call.dbDelete (dbFirst id w).ID] ∧
    (DeleteProductHandler env f now idParam w).world =
      (dbDelete f.dbDelete now (dbFirst id w)
        (DeleteObject false env.s3Public (dbFirst id w).PhotoKey w)).2 ∧
    ((DeleteProductHandler env f now idParam w).resp =
        { status := 404, body := Body.error "product-not-found" "Product not found" } ∨
     (DeleteProductHandler env f now idParam w).resp =
        { status := 500, body := Body.error "database-error" "Error deleting product" } ∨
     (f.dbDelete = none ∧ (DeleteProductHandler env f now idParam w).resp =
        { status := 200,
          body := Body.deleted "delete-product" "Product deleted successfully" })) := by
  obtain ⟨m, hm, hmid, hmz⟩ := model_of_ID_ne_zero _ hrow
  unfold DeleteProductHandler
  simp only [hid, Bool.false_eq_true, if_false, hm, if_neg hmz, hok]
  simp only [hmid]
  rcases hd : f.dbDelete with _ | e
  · simp [dbDelete]
  · cases e <;> simp [dbDelete]

/-- What a 200 answer of `DeleteProductHandler` tells about the run. -/
theorem delete_200_inv (env : Env) (f : Faults) (now : Nat) (idParam : String) (w : World)
    (h : (DeleteProductHandler env f now idParam w).resp.status = 200) :
    (Atoi idParam).2 = false ∧ (dbFirst (Atoi idParam).1 w).ID ≠ 0 ∧
      f.DeleteObject = false ∧ f.dbDelete = none := by
  unfold DeleteProductHandler at h
  by_cases h1 : (Atoi idParam).2 = true
  · simp [h1] at h
  · cases hm : (dbFirst (Atoi idParam).1 w).Model with
    | none => simp [h1, hm, recovered] at h
    | some m =>
      have hid : (dbFirst (Atoi idParam).1 w).ID = m.ID := by simp [Product.ID, hm]
      by_cases h2 : m.ID = 0
      · simp [h1, hm, h2] at h
      · by_cases h3 : f.DeleteObject = true
        · simp [h1, hm, h2, h3] at h
        · rcases hd : f.dbDelete with _ | e
          · exact ⟨by simpa using h1, by rw [hid]; exact h2, by simpa using h3, rfl⟩
          · cases e <;> simp [h1, hm, h2, h3, hd, dbDelete] at h

/-- `DeleteProductHandler` never writes to Redis. -/
theorem delete_cache (env : Env) (f : Faults) (now : Nat) (idParam : String) (w : World) :
    (DeleteProductHandler env f now idParam w).world.cache = w.cache := by
  unfold DeleteProductHandler
  by_cases h1 : (Atoi idParam).2 = true
  · simp [h1]
  · cases hm : (dbFirst (Atoi idParam).1 w).Model with
    | none => simp [h1, hm]
    | some m =>
      by_cases h2 : m.ID = 0
      · simp [h1, hm, h2]
      · by_cases h3 : f.DeleteObject = true
        · simp [h1, hm, h2, h3, DeleteObject]
        · rcases hd : f.dbDelete with _ | e
          · simp [h1, hm, h2, h3, dbDelete, DeleteObject]
          · cases e <;> simp [h1, hm, h2, h3, dbDelete, DeleteObject]

theorem dbFirst_of_mem (id : Int) (w : World) (p : Product) (hp : p ∈ w.products)
    (hl : live p = true) (hpid : (p.ID : Int) = id) : ((dbFirst id w).ID : Int) = id := by
  unfold dbFirst
  cases hf : (w.products.filter live).find? (fun q => decide ((q.ID : Int) = id)) with
  | none =>
    rw [List.find?_eq_none] at hf
    have := hf p (List.mem_filter.mpr ⟨hp, hl⟩)
    simp [hpid] at this
  | some q =>
    have := List.find?_some hf
    simpa using this

/-- When no row carries the next id, `db.First` by that id finds the row appended with it. -/
theorem dbFirst_appended (w w2 : World) (q : Product)
    (hfresh : ∀ r ∈ w.products, r.ID ≠ w.lastId + 1)
    (hq : q.ID = w.lastId + 1) (hlive : live q = true)
    (hprod : w2.products = w.products ++ [q]) :
    dbFirst ((w.lastId + 1 : Nat) : Int) w2 = q := by
  unfold dbFirst
  rw [hprod, List.filter_append, List.find?_append]
  have hnone : (w.products.filter live).find?
      (fun p => decide ((p.ID : Int) = ((w.lastId + 1 : Nat) : Int))) = none := by
    rw [List.find?_eq_none]
    intro x hx
    have hx' := hfresh x (List.mem_of_mem_filter hx)
    simp only [decide_eq_true_eq]
    omega
  rw [hnone]
  simp [List.filter_cons, hlive, hq]

/-- C3: when the row of `id` exists and `DeleteObject` fails, `DeleteProductHandler` answers the
500 `file-delete-cdn` error, its backend calls are `db.First` and `DeleteObject` only (no
`db.Delete`), and the whole world (table, cache, objects) is unchanged; a second delete of
the same id finds the same row, calls `DeleteObject` with the same key again and does not
answer the 404 of a missing row, whatever the backends do then. -/
theorem C3_blob_delete_failure_keeps_row (env : Env) (f f2 : Faults) (now now2 : Nat)
    (idParam : String) (id : Int) (w : World) (p : Product)
    (hid : Atoi idParam = (id, false)) (hp : p ∈ w.products) (hlive : live p = true)
    (hpid : (p.ID : Int) = id) (hnz : p.ID ≠ 0) (hfail : f.DeleteObject = true) :
    (DeleteProductHandler env f now idParam w).resp =
      { status := 500, body := Body.error "file-delete-cdn" "Error deleting file from CDN" } ∧
    (DeleteProductHandler env f now idParam w).calls =
      [Call.dbFirst id, Call.DeleteObject env.s3Public (dbFirst id w).PhotoKey] ∧
    (DeleteProductHandler env f now idParam w).world = w ∧
    p ∈ (DeleteProductHandler env f now idParam w).world.products ∧
    dbFirst id (DeleteProductHandler env f now idParam w).world = dbFirst id w ∧
    [Call.dbFirst id, Call.DeleteObject env.s3Public (dbFirst id w).PhotoKey] <+:
      (DeleteProductHandler env f2 now2 idParam
        (DeleteProductHandler env f now idParam w).world).calls ∧
    (DeleteProductHandler env f2 now2 idParam
        (DeleteProductHandler env f now idParam w).world).resp ≠
      { status := 404,
        body := Body.error "product-not-found" "Product not found in database" } := by
  have hrow : (dbFirst id w).ID ≠ 0 := by
    have h := dbFirst_of_mem id w p hp hlive hpid
    intro h0
    rw [h0, ← hpid] at h
    exact hnz (by exact_mod_cast h.symm)
  have h1 := delete_blob_fault env f now idParam id w hid hrow hfail
  rw [h1]
  refine ⟨rfl, rfl, rfl, hp, rfl, ?_, ?_⟩
  · show _ <+: (DeleteProductHandler env f2 now2 idParam w).calls
    cases hf2 : f2.DeleteObject with
    | true =>
      have h2 := delete_blob_fault env f2 now2 idParam id w hid hrow hf2
      exact h2 ▸ List.prefix_refl _
    | false =>
      rw [(delete_proceeds env f2 now2 idParam id w hid hrow hf2).1]
      exact ⟨[Call.dbDelete (dbFirst id w).ID], rfl⟩
  · show (DeleteProductHandler env f2 now2 idParam w).resp ≠ _
    cases hf2 : f2.DeleteObject with
    | true =>
      rw [delete_blob_fault env f2 now2 idParam id w hid hrow hf2]
      simp
    | false =>
      rcases (delete_proceeds env f2 now2 idParam id w hid hrow hf2).2.2 with h | h | ⟨_, h⟩ <;>
        rw [h] <;> simp

/-- After a successful create, a successful delete of the new id removes the object under
the stored URL, not the uploaded one. -/
theorem delete_after_create (env : Env) (fc fd : Faults) (t0 t1 : Nat)
    (dto : CreateProductDto) (w : World) (fh : FileHeader) (p : Product)
    (msg c tmp url : String)
    (hphoto : dto.ProductPhoto = some fh)
    (hcreate : (CreateProductHandler env fc t0 dto w).resp =
      { status := 200, body := Body.created "create-product" msg p c tmp url })
    (hdel : (DeleteProductHandler env fd t1 (Itoa (p.ID : Int))
      (CreateProductHandler env fc t0 dto w).world).resp.status = 200) :
    (DeleteProductHandler env fd t1 (Itoa (p.ID : Int))
      (CreateProductHandler env fc t0 dto w).world).calls =
      [Call.dbFirst (p.ID : Int), Call.DeleteObject env.s3Public (imageRealUrl env fh.Filename),
       Call.dbDelete p.ID] ∧
    lookupObject env.s3Public fh.Filename
      (DeleteProductHandler env fd t1 (Itoa (p.ID : Int))
        (CreateProductHandler env fc t0 dto w).world).world.objects
      = some (uploadedObject env fh) := by
  obtain ⟨hv, ho, hput, hins, hp, _, hlt⟩ :=
    create_200_fields env fc t0 dto w fh p _ msg c tmp url hphoto hcreate
  obtain ⟨hobj, hprod, _, _⟩ := create_ok_stores env fc t0 dto fh w hv ho hput hins
  have hpid : p.ID = w.lastId + 1 := by rw [hp]; rfl
  have hatoi : Atoi (Itoa (p.ID : Int)) = (((w.lastId + 1 : Nat) : Int), false) := by
    rw [hpid]
    exact Atoi_Itoa_nat _ hlt
  have hfirst : dbFirst ((w.lastId + 1 : Nat) : Int) (CreateProductHandler env fc t0 dto w).world
      = createdProduct env t0 dto.Name fh w :=
    dbFirst_appended w _ _ (insertFails_false _ _ hins).2.2 rfl rfl hprod
  have hrow : (dbFirst ((w.lastId + 1 : Nat) : Int)
      (CreateProductHandler env fc t0 dto w).world).ID ≠ 0 := by
    rw [hfirst]
    simp [createdProduct, Product.ID]
  obtain ⟨_, _, hdo, hdd⟩ := delete_200_inv env fd t1 _ _ hdel
  obtain ⟨hcalls, hworld, _⟩ := delete_proceeds env fd t1 _ _ _ hatoi hrow hdo
  rw [hcalls, hworld, hfirst, hdd, hpid]
  refine ⟨rfl, ?_⟩
  show lookupObject env.s3Public fh.Filename
    ((CreateProductHandler env fc t0 dto w).world.objects.filter
      (fun e => decide (e.1 ≠ (env.s3Public, imageRealUrl env fh.Filename)))) = _
  rw [lookupObject_filter_ne, hobj]
  · exact lookupObject_cons_self _ _ _ _
  · intro h
    exact url_ne_key env.s3Endpoint env.s3Public fh.Filename (Prod.mk.inj h).2.symm

/-- C9: after a successful create (cache entry written at `t0`) and a successful delete of the
created id, a read of the `cache_id` before `t0 + 60` is still a 200 with the uploaded
content; `DeleteProductHandler` leaves the Redis key space untouched on every path. -/
theorem C9_delete_keeps_cache_entry (env : Env) (fc fd fr : Faults) (t0 t1 t2 : Nat)
    (dto : CreateProductDto) (w : World) (fh : FileHeader) (p : Product)
    (msg c tmp url : String)
    (hphoto : dto.ProductPhoto = some fh)
    (hcreate : (CreateProductHandler env fc t0 dto w).resp =
      { status := 200, body := Body.created "create-product" msg p c tmp url })
    (hset : fc.rdbSet = false)
    (hdel : (DeleteProductHandler env fd t1 (Itoa (p.ID : Int))
      (CreateProductHandler env fc t0 dto w).world).resp.status = 200)
    (ht : t2 < t0 + 60) (hr : fr.rdbGet = false) (hg : fr.GetObject = false) :
    (GetProductByCacheIdHandler env fr t2 c
      (DeleteProductHandler env fd t1 (Itoa (p.ID : Int))
        (CreateProductHandler env fc t0 dto w).world).world).resp =
      { status := 200,
        body := Body.data ("attachment; filename=" ++ fh.Filename) (fh.content.length : Int)
          (env.DetectContentType fh.content) fh.content } ∧
    (∀ (e : Env) (f : Faults) (now : Nat) (idParam : String) (v : World),
      (DeleteProductHandler e f now idParam v).world.cache = v.cache) := by
  refine ⟨?_, fun e f now idParam v => delete_cache e f now idParam v⟩
  obtain ⟨hv, ho, hput, hins, _, hc, _⟩ :=
    create_200_fields env fc t0 dto w fh p _ msg c tmp url hphoto hcreate
  obtain ⟨_, _, _, hcache⟩ := create_ok_stores env fc t0 dto fh w hv ho hput hins
  obtain ⟨_, hobj⟩ := delete_after_create env fc fd t0 t1 dto w fh p msg c tmp url hphoto
    hcreate hdel
  have h1 : rdbGet fr.rdbGet t2 c
      (DeleteProductHandler env fd t1 (Itoa (p.ID : Int))
        (CreateProductHandler env fc t0 dto w).world).world = some fh.Filename := by
    unfold rdbGet
    rw [hr, delete_cache, hcache hset, hc]
    simp [rdbLookup_cons_self, ht]
  have h2 : GetObject fr.GetObject env.s3Public fh.Filename
      (DeleteProductHandler env fd t1 (Itoa (p.ID : Int))
        (CreateProductHandler env fc t0 dto w).world).world = some (uploadedObject env fh) := by
    unfold GetObject
    rw [hg]
    simpa using hobj
  rw [read_hit env fr t2 c fh.Filename _ _ h1 h2]
  rfl

/-- C1 (failing run): create "Chair" with file `chair.png` in the empty world, then delete the
returned id 1.  Both answer 200 and no live row with id 1 is left, but `DeleteObject` is
called with the key `http://localhost:9000/public/chair.png` while `PutObject` wrote the key
`chair.png`: the uploaded object is still in bucket `public` after the delete. -/
theorem C1_delete_leaves_uploaded_blob :
    (CreateProductHandler env0 Faults.none 100 chairDto World.empty).resp =
      { status := 200,
        body := Body.created "create-product" "File uploaded successfully chair.png"
          { Model := some { ID := 1, CreatedAt := 100, UpdatedAt := 100, DeletedAt := none },
            Name := "Chair", PhotoKey := "http://localhost:9000/public/chair.png" }
          "1" "/cache/1" "http://localhost:9000/public/chair.png" } ∧
    (CreateProductHandler env0 Faults.none 100 chairDto World.empty).calls =
      [Call.PutObject "public" "chair.png",
       Call.dbCreate "Chair" "http://localhost:9000/public/chair.png",
       Call.rdbSet "1" "chair.png" 60, Call.Publish "product.created" "Chair"] ∧
    DeleteProductHandler env0 Faults.none 110 "1"
        (CreateProductHandler env0 Faults.none 100 chairDto World.empty).world =
      { resp := { status := 200,
                  body := Body.deleted "delete-product" "Product deleted successfully" },
        world :=
          { objects := [(("public", "chair.png"),
              { Body := [137, 80, 78, 71, 13, 10, 26, 10], ContentLength := 8,
                ContentType := "image/png", ContentDisposition := "attachment" })],
            products := [{ Model := some { ID := 1, CreatedAt := 100, UpdatedAt := 100,
                                           DeletedAt := some 110 },
                           Name := "Chair",
                           PhotoKey := "http://localhost:9000/public/chair.png" }],
            lastId := 1,
            cache := [("1", ("chair.png", 160))],
            published := [("product.created", "Chair")] },
        calls := [Call.dbFirst 1,
                  Call.DeleteObject "public" "http://localhost:9000/public/chair.png",
                  Call.dbDelete 1] } ∧
    dbFirst 1 (DeleteProductHandler env0 Faults.none 110 "1"
        (CreateProductHandler env0 Faults.none 100 chairDto World.empty).world).world
      = Product.zero ∧
    lookupObject "public" "chair.png"
      (DeleteProductHandler env0 Faults.none 110 "1"
        (CreateProductHandler env0 Faults.none 100 chairDto World.empty).world).world.objects
      = some { Body := [137, 80, 78, 71, 13, 10, 26, 10], ContentLength := 8, ContentType := "image/png",
               ContentDisposition := "attachment" } := by
  decide

/-! ## `GetProductsHandler` -/

theorem wrapInt_of_range (x : Int) (h1 : -(2 ^ 63) ≤ x) (h2 : x < 2 ^ 63) : wrapInt x = x := by
  unfold wrapInt
  omega

/-- A query value that `Atoi` rejects as malformed is replaced by the default. -/
theorem list_defaults_on_malformed (pageQ limitQ : Option String) (w : World)
    (hp : Atoi (DefaultQuery pageQ "1") = (0, true) ∨ pageQ = none)
    (hl : Atoi (DefaultQuery limitQ "10") = (0, true) ∨ limitQ = none) :
    GetProductsHandler pageQ limitQ w = GetProductsHandler none none w := by
  have h1 : Atoi (DefaultQuery none "1") = (1, false) := by decide
  have h10 : Atoi (DefaultQuery none "10") = (10, false) := by decide
  have hp2 : Atoi (DefaultQuery pageQ "1") = (0, true) ∨
      Atoi (DefaultQuery pageQ "1") = (1, false) := by
    rcases hp with hp | hp
    · exact Or.inl hp
    · exact Or.inr (hp ▸ h1)
  have hl2 : Atoi (DefaultQuery limitQ "10") = (0, true) ∨
      Atoi (DefaultQuery limitQ "10") = (10, false) := by
    rcases hl with hl | hl
    · exact Or.inl hl
    · exact Or.inr (hl ▸ h10)
  unfold GetProductsHandler
  rcases hp2 with hp2 | hp2 <;> rcases hl2 with hl2 | hl2 <;>
    simp only [hp2, hl2, h1, h10] <;> rfl

/-- C5 (failing run): `GET /products?page=abc&limit=-5` on a table of 12 rows.  `abc` is
replaced by page 1, but `-5` parses without error and is passed on: the scan is issued with
limit -5 and offset 0 and returns all 12 rows, while the request without parameters scans
with limit 10 and offset 0 and returns the first 10.  Likewise `page=0&limit=0` reaches the
scan as limit 0. -/
theorem C5_nonpositive_limit_reaches_scan :
    GetProductsHandler (some "abc") (some "-5") (sampleWorld 12) =
      { resp := { status := 200,
                  body := Body.products "get-products" "Products fetched successfully"
                    (sampleWorld 12).products },
        world := sampleWorld 12, calls := [Call.dbFind (-5) 0] } ∧
    GetProductsHandler none none (sampleWorld 12) =
      { resp := { status := 200,
                  body := Body.products "get-products" "Products fetched successfully"
                    ((sampleWorld 12).products.take 10) },
        world := sampleWorld 12, calls := [Call.dbFind 10 0] } ∧
    (GetProductsHandler (some "abc") (some "-5") (sampleWorld 12)).resp ≠
      (GetProductsHandler none none (sampleWorld 12)).resp ∧
    (GetProductsHandler (some "0") (some "0") (sampleWorld 12)).calls = [Call.dbFind 0 0] ∧
    (GetProductsHandler (some "abc") (some "xyz") (sampleWorld 12)).calls = [Call.dbFind 10 0] := by
  decide

/-- C6 (counterexample): page 4611686018427387905 with limit 4 on a table of 12 rows.  Both
values parse without error and are at least 1, the offset `(page-1)*limit` is 2^64, which
wraps to 0 in the 64-bit `int`: the handler scans with offset 0 and returns rows 1-4, while
the slice at offset `(page-1)*limit` is empty. -/
theorem C6_offset_wraps_counterexample :
    Atoi "4611686018427387905" = (4611686018427387905, false) ∧
    Atoi "4" = (4, false) ∧
    GetProductsHandler (some "4611686018427387905") (some "4") (sampleWorld 12) =
      { resp := { status := 200,
                  body := Body.products "get-products" "Products fetched successfully"
                    ((sampleWorld 12).products.take 4) },
        world := sampleWorld 12, calls := [Call.dbFind 4 0] } ∧
    pageSlice ((sampleWorld 12).products.filter live) 4611686018427387905 4 = [] ∧
    (GetProductsHandler (some "4611686018427387905") (some "4") (sampleWorld 12)).resp ≠
      { status := 200,
        body := Body.products "get-products" "Products fetched successfully"
          (pageSlice ((sampleWorld 12).products.filter live) 4611686018427387905 4) } := by
  decide

/-- C6 (amended): for query values that parse to `page ≥ 1` and `limit ≥ 1` whose offset
`(page-1)*limit` fits the 64-bit `int`, `GetProductsHandler` answers 200 with the live rows
at positions `(page-1)*limit + 1` through `min (page*limit) n` in insertion order: the
result is `take limit (drop ((page-1)*limit) rows)`, has `min limit (n - offset)` rows, and
is empty when the offset is at least `n`. -/
theorem C6_page_slice (w : World) (pageQ limitQ : Option String) (page limit : Int)
    (hpage : Atoi (DefaultQuery pageQ "1") = (page, false))
    (hlimit : Atoi (DefaultQuery limitQ "10") = (limit, false))
    (hp : 1 ≤ page) (hl : 1 ≤ limit) (hfit : (page - 1) * limit < 2 ^ 63) :
    GetProductsHandler pageQ limitQ w =
      { resp := { status := 200,
                  body := Body.products "get-products" "Products fetched successfully"
                    (pageSlice (w.products.filter live) page limit) },
        world := w, calls := [Call.dbFind limit ((page - 1) * limit)] } ∧
    pageSlice (w.products.filter live) page limit =
      ((w.products.filter live).drop ((page - 1) * limit).toNat).take limit.toNat ∧
    (pageSlice (w.products.filter live) page limit).length =
      min limit.toNat ((w.products.filter live).length - ((page - 1) * limit).toNat) ∧
    (pageSlice (w.products.filter live) page limit).length ≤ limit.toNat ∧
    (∀ i, i < (pageSlice (w.products.filter live) page limit).length →
      (pageSlice (w.products.filter live) page limit)[i]? =
        (w.products.filter live)[((page - 1) * limit).toNat + i]?) ∧
    (((w.products.filter live).length : Int) ≤ (page - 1) * limit →
      pageSlice (w.products.filter live) page limit = []) := by
  have hnn : 0 ≤ (page - 1) * limit := Int.mul_nonneg (by omega) (by omega)
  have hle : page - 1 ≤ (page - 1) * limit := by
    have := Int.mul_le_mul_of_nonneg_left hl (show (0 : Int) ≤ page - 1 by omega)
    simpa using this
  have hw1 : wrapInt (page - 1) = page - 1 := wrapInt_of_range _ (by omega) (by omega)
  have hw2 : wrapInt ((page - 1) * limit) = (page - 1) * limit :=
    wrapInt_of_range _ (by omega) hfit
  refine ⟨?_, rfl, ?_, ?_, ?_, ?_⟩
  · unfold GetProductsHandler
    simp only [hpage, hlimit, Bool.false_and, Bool.false_eq_true, if_false, hw1, hw2]
    have hl0 : (0 : Int) < limit := by omega
    unfold dbFind pageSlice
    simp only [hl0, if_true]
    by_cases ho : 0 < (page - 1) * limit
    · simp only [ho, if_true]
    · have h0 : (page - 1) * limit = 0 := by omega
      simp [h0]
  · simp [pageSlice, List.length_take, List.length_drop]
  · simp [pageSlice, List.length_take]
  · intro i hi
    unfold pageSlice at hi ⊢
    rw [List.getElem?_take_of_lt (by
      rw [List.length_take] at hi
      omega), List.getElem?_drop]
  · intro hge
    unfold pageSlice
    rw [List.drop_eq_nil_of_le (by omega)]
    exact List.take_nil

/-- C6 (instance): page 2 with limit 5.  On a table of 12 rows the answer is rows 6-10; on
a table of 4 rows the answer is the empty list with status 200. -/
theorem C6_page_slice_witness :
    (GetProductsHandler (some "2") (some "5") (sampleWorld 12)).resp =
      { status := 200,
        body := Body.products "get-products" "Products fetched successfully"
          [sampleProduct 5, sampleProduct 6, sampleProduct 7, sampleProduct 8,
           sampleProduct 9] } ∧
    (GetProductsHandler (some "2") (some "5") (sampleWorld 4)).resp =
      { status := 200,
        body := Body.products "get-products" "Products fetched successfully" [] } := by
  have h12 := (C6_page_slice (sampleWorld 12) (some "2") (some "5") 2 5 (by decide) (by decide)
    (by decide) (by decide) (by decide)).1
  have h4 := (C6_page_slice (sampleWorld 4) (some "2") (some "5") 2 5 (by decide) (by decide)
    (by decide) (by decide) (by decide)).1
  rw [h12, h4]
  decide

/-! ## The panics on a nil `Model` -/

/-- A `db.Create` that fails without touching the struct: line 294 panics and the answer is
the bodiless 500, after the upload and with nothing else changed. -/
theorem create_untouched_panics :
    CreateProductHandler env0 { Faults.none with dbCreate := some CreateError.untouched } 100
        chairDto World.empty =
      { resp := { status := 500, body := Body.empty },
        world := { World.empty with objects := [(("public", "chair.png"),
          { Body := [137, 80, 78, 71, 13, 10, 26, 10], ContentLength := 8,
            ContentType := "image/png", ContentDisposition := "attachment" })] },
        calls := [Call.PutObject "public" "chair.png",
                  Call.dbCreate "Chair" "http://localhost:9000/public/chair.png"] } := by
  decide

/-- A delete of an id without a live row: line 369 panics and the answer is the bodiless
500, with nothing changed. -/
theorem delete_missing_row_panics :
    DeleteProductHandler env0 Faults.none 110 "7" chairWorld =
      { resp := { status := 500, body := Body.empty }, world := chairWorld,
        calls := [Call.dbFirst 7] } := by
  decide

/-! ## Instances -/

theorem chairDto_valid : ValidUpload chairDto chairFile :=
  ⟨rfl, by decide, by decide⟩

/-- C2 (instance): the upload of `chair.png` with a failing `PutObject`. -/
theorem C2_create_success_or_no_row_witness :
    ValidUpload chairDto chairFile ∧
    (CreateProductHandler env0 { Faults.none with PutObject := true } 100 chairDto
        World.empty).resp =
      { status := 500, body := Body.error "file-upload-cdn" "Error uploading file to CDN" } ∧
    (CreateProductHandler env0 { Faults.none with PutObject := true } 100 chairDto
        World.empty).calls = [Call.PutObject "public" "chair.png"] ∧
    (CreateProductHandler env0 { Faults.none with PutObject := true } 100 chairDto
        World.empty).world = World.empty :=
  ⟨chairDto_valid,
   (C2_create_success_or_no_row env0 { Faults.none with PutObject := true } 100 chairDto
      World.empty).2 chairFile chairDto_valid rfl rfl⟩

/-- C3 (instance): deleting product 1 of `chairWorld` with a failing `DeleteObject`, then
retrying with working backends. -/
theorem C3_blob_delete_failure_keeps_row_witness :
    (Atoi "1" = (1, false) ∧ chairProduct ∈ chairWorld.products ∧ live chairProduct = true) ∧
    (DeleteProductHandler env0 { Faults.none with DeleteObject := true } 110 "1"
        chairWorld).resp =
      { status := 500, body := Body.error "file-delete-cdn" "Error deleting file from CDN" } ∧
    (DeleteProductHandler env0 { Faults.none with DeleteObject := true } 110 "1"
        chairWorld).calls =
      [Call.dbFirst 1, Call.DeleteObject env0.s3Public (dbFirst 1 chairWorld).PhotoKey] ∧
    (DeleteProductHandler env0 { Faults.none with DeleteObject := true } 110 "1"
        chairWorld).world = chairWorld ∧
    chairProduct ∈ (DeleteProductHandler env0 { Faults.none with DeleteObject := true } 110 "1"
        chairWorld).world.products ∧
    dbFirst 1 (DeleteProductHandler env0 { Faults.none with DeleteObject := true } 110 "1"
        chairWorld).world = dbFirst 1 chairWorld ∧
    [Call.dbFirst 1, Call.DeleteObject env0.s3Public (dbFirst 1 chairWorld).PhotoKey] <+:
      (DeleteProductHandler env0 Faults.none 120 "1"
        (DeleteProductHandler env0 { Faults.none with DeleteObject := true } 110 "1"
          chairWorld).world).calls ∧
    (DeleteProductHandler env0 Faults.none 120 "1"
        (DeleteProductHandler env0 { Faults.none with DeleteObject := true } 110 "1"
          chairWorld).world).resp ≠
      { status := 404,
        body := Body.error "product-not-found" "Product not found in database" } :=
  ⟨⟨by decide, by decide, by decide⟩,
   C3_blob_delete_failure_keeps_row env0 { Faults.none with DeleteObject := true } Faults.none
     110 120 "1" 1 chairWorld chairProduct (by decide) (by decide) (by decide) (by decide)
     (by decide) rfl⟩

/-- C4 (instance): the end-to-end scenario, create at time 100 and read at time 120. -/
theorem C4_create_read_round_trip_witness :
    (GetProductByCacheIdHandler env0 Faults.none 120 "1"
        (CreateProductHandler env0 Faults.none 100 chairDto World.empty).world).resp =
      { status := 200,
        body := Body.data "attachment; filename=chair.png" 8 "image/png" [137, 80, 78, 71, 13, 10, 26, 10] } :=
  (C4_create_read_round_trip env0 Faults.none Faults.none 100 120 chairDto World.empty
    chairFile chairProduct "File uploaded successfully chair.png" "1" "/cache/1"
    "http://localhost:9000/public/chair.png" rfl (by decide) rfl (by decide) rfl rfl).1

/-- C7 (instance): reading token "1" of `chairWorld` at time 160, when the entry written at
time 100 has expired. -/
theorem C7_cache_miss_is_terminal_witness :
    rdbLookup 160 "1" chairWorld.cache = none ∧
    GetProductByCacheIdHandler env0 Faults.none 160 "1" chairWorld =
      { resp := { status := 404, body := Body.error "file-cache" "File not found in Redis" },
        world := chairWorld, calls := [Call.rdbGet "1"] } :=
  ⟨by decide,
   (C7_cache_miss_is_terminal env0 Faults.none 160 "1" chairWorld (by decide)).1⟩

/-- C9 (instance): create at time 100, delete at time 110, read at time 120. -/
theorem C9_delete_keeps_cache_entry_witness :
    (DeleteProductHandler env0 Faults.none 110 "1"
        (CreateProductHandler env0 Faults.none 100 chairDto World.empty).world).resp.status
      = 200 ∧
    (GetProductByCacheIdHandler env0 Faults.none 120 "1"
        (DeleteProductHandler env0 Faults.none 110 (Itoa ((chairProduct.ID : Nat) : Int))
          (CreateProductHandler env0 Faults.none 100 chairDto World.empty).world).world).resp =
      { status := 200,
        body := Body.data "attachment; filename=chair.png" 8 "image/png" [137, 80, 78, 71, 13, 10, 26, 10] } :=
  ⟨by decide,
   (C9_delete_keeps_cache_entry env0 Faults.none Faults.none Faults.none 100 110 120 chairDto
    World.empty chairFile chairProduct "File uploaded successfully chair.png" "1" "/cache/1"
    "http://localhost:9000/public/chair.png" rfl (by decide) rfl (by decide)
    (by decide) rfl rfl).1⟩

/-- C10 (instance): the upload of `chair.png` with both `rdb.Set` and `Publish` failing. -/
theorem C10_best_effort_steps_witness :
    (CreateProductHandler env0 { Faults.none with rdbSet := true, Publish := true } 100
        chairDto World.empty).resp =
      (CreateProductHandler env0 Faults.none 100 chairDto World.empty).resp ∧
    (CreateProductHandler env0 Faults.none 100 chairDto World.empty).resp.status = 200 :=
  ⟨(C10_best_effort_steps env0 Faults.none 100 chairDto World.empty chairFile true true
      chairDto_valid rfl rfl (by decide)).1,
   by decide⟩

end GoCrud
